import Mathlib

/-!
Verification of `hotaydev/get-user-social-profile-image` (src/src/app.ts).

The program is a single Express POST endpoint that validates an
`account_type` / `identifier` pair, dispatches to one of three avatar
strategies (GitHub, Gravatar, Mastodon) and wraps the outcome in a uniform
JSON envelope.  We embed the handler and the three strategies shallowly:
the two network-backed strategies are parameterised by the outcome of
their single outbound `fetch`, and the Gravatar strategy is implemented
fully, including an executable SHA-256 over the UTF-8 bytes of the
normalized identifier.
-/

namespace AvatarApp

/-! ### 32-bit arithmetic helpers (SHA-256 works on 32-bit words) -/

/-- Truncation to a 32-bit word. -/
def w32 (x : Nat) : Nat := x % 4294967296

/-- Right rotation of a 32-bit word by `n` bits. -/
def rotr (n x : Nat) : Nat := w32 ((x >>> n) ||| (x <<< (32 - n)))

/-- SHA-256 `Σ0`. -/
def bigSigma0 (x : Nat) : Nat := (rotr 2 x) ^^^ (rotr 13 x) ^^^ (rotr 22 x)

/-- SHA-256 `Σ1`. -/
def bigSigma1 (x : Nat) : Nat := (rotr 6 x) ^^^ (rotr 11 x) ^^^ (rotr 25 x)

/-- SHA-256 `σ0`. -/
def smallSigma0 (x : Nat) : Nat := (rotr 7 x) ^^^ (rotr 18 x) ^^^ (x >>> 3)

/-- SHA-256 `σ1`. -/
def smallSigma1 (x : Nat) : Nat := (rotr 17 x) ^^^ (rotr 19 x) ^^^ (x >>> 10)

/-- SHA-256 `Ch e f g = (e ∧ f) ⊕ (¬e ∧ g)` on 32-bit words. -/
def chFn (e f g : Nat) : Nat := (e &&& f) ^^^ ((e ^^^ 4294967295) &&& g)

/-- SHA-256 `Maj a b c`. -/
def majFn (a b c : Nat) : Nat := (a &&& b) ^^^ (a &&& c) ^^^ (b &&& c)

/-- The 64 SHA-256 round constants. -/
def K256 : List Nat :=
  [1116352408, 1899447441, 3049323471, 3921009573, 961987163,
   1508970993, 2453635748, 2870763221, 3624381080, 310598401,
   607225278, 1426881987, 1925078388, 2162078206, 2614888103,
   3248222580, 3835390401, 4022224774, 264347078, 604807628,
   770255983, 1249150122, 1555081692, 1996064986, 2554220882,
   2821834349, 2952996808, 3210313671, 3336571891, 3584528711,
   113926993, 338241895, 666307205, 773529912, 1294757372,
   1396182291, 1695183700, 1986661051, 2177026350, 2456956037,
   2730485921, 2820302411, 3259730800, 3345764771, 3516065817,
   3600352804, 4094571909, 275423344, 430227734, 506948616,
   659060556, 883997877, 958139571, 1322822218, 1537002063,
   1747873779, 1955562222, 2024104815, 2227730452, 2361852424,
   2428436474, 2756734187, 3204031479, 3329325298]

/-- The SHA-256 initial hash value (8 words). -/
def initH256 : List Nat :=
  [1779033703, 3144134277, 1013904242, 2773480762, 1359893119,
   2600822924, 528734635, 1541459225]

/-- `n` bytes of `x` in big-endian order. -/
def toBytesBE : Nat → Nat → List Nat
  | 0, _ => []
  | n + 1, x => toBytesBE n (x >>> 8) ++ [x &&& 255]

/-- Group a byte list into big-endian 32-bit words; `fuel` bounds recursion. -/
def bytesToWords : Nat → List Nat → List Nat
  | 0, _ => []
  | fuel + 1, bytes =>
    match bytes with
    | b0 :: b1 :: b2 :: b3 :: rest =>
        (b0 * 16777216 + b1 * 65536 + b2 * 256 + b3) :: bytesToWords fuel rest
    | _ => []

/-- SHA-256 padding: append `0x80`, zero bytes up to 56 mod 64, then the
bit length as an 8-byte big-endian integer. -/
def padMessage (msg : List Nat) : List Nat :=
  let len := msg.length
  let zeros := (119 - (len % 64)) % 64
  msg ++ [0x80] ++ List.replicate zeros 0 ++ toBytesBE 8 (len * 8)

/-- Message-schedule extension, accumulating the schedule in reverse
(`acc.head` is the most recent word). -/
def scheduleRev : Nat → List Nat → List Nat
  | 0, acc => acc
  | n + 1, acc =>
      let v := w32 (acc.getD 15 0 + smallSigma0 (acc.getD 14 0) +
                    acc.getD 6 0 + smallSigma1 (acc.getD 1 0))
      scheduleRev n (v :: acc)

/-- One compression round: the state is the list `[a,b,c,d,e,f,g,h]` and
`kw` pairs a round constant with a schedule word. -/
def roundStep (state : List Nat) (kw : Nat × Nat) : List Nat :=
  match state with
  | [a, b, c, d, e, f, g, h] =>
      let t1 := w32 (h + bigSigma1 e + chFn e f g + kw.1 + kw.2)
      let t2 := w32 (bigSigma0 a + majFn a b c)
      [w32 (t1 + t2), a, b, c, w32 (d + t1), e, f, g]
  | s => s

/-- Compress one 16-word block into the running 8-word hash state. -/
def compressBlock (h : List Nat) (block : List Nat) : List Nat :=
  let ws := (scheduleRev 48 block.reverse).reverse
  let st := (K256.zip ws).foldl roundStep h
  (h.zip st).map (fun p => w32 (p.1 + p.2))

/-- Fold the compression function over successive 16-word blocks;
`fuel` bounds recursion. -/
def processBlocks : Nat → List Nat → List Nat → List Nat
  | 0, h, _ => h
  | fuel + 1, h, ws =>
    match ws with
    | [] => h
    | _ => processBlocks fuel (compressBlock h (ws.take 16)) (ws.drop 16)

/-- SHA-256 of a byte list, as the 32-byte digest. -/
def sha256 (msg : List Nat) : List Nat :=
  let padded := padMessage msg
  let ws := bytesToWords padded.length padded
  let hf := processBlocks ws.length initH256 ws
  hf.flatMap (toBytesBE 4)

/-- Lower-case hexadecimal digit. -/
def hexDigit (n : Nat) : Char :=
  if n < 10 then Char.ofNat (48 + n) else Char.ofNat (87 + n)

/-- A byte as two lower-case hexadecimal characters. -/
def byteToHex (b : Nat) : List Char := [hexDigit (b / 16), hexDigit (b % 16)]

/-- SHA-256 of a byte list as a lower-case hex string, as produced by
`crypto.createHash("sha256").update(s).digest("hex")`. -/
def sha256Hex (msg : List Nat) : String := String.mk ((sha256 msg).flatMap byteToHex)

/-! ### UTF-8 and JavaScript string normalization -/

/-- UTF-8 encoding of a single code point. -/
def utf8EncodeChar (c : Nat) : List Nat :=
  if c < 0x80 then [c]
  else if c < 0x800 then
    [0xC0 ||| (c >>> 6), 0x80 ||| (c &&& 0x3F)]
  else if c < 0x10000 then
    [0xE0 ||| (c >>> 12), 0x80 ||| ((c >>> 6) &&& 0x3F), 0x80 ||| (c &&& 0x3F)]
  else
    [0xF0 ||| (c >>> 18), 0x80 ||| ((c >>> 12) &&& 0x3F),
     0x80 ||| ((c >>> 6) &&& 0x3F), 0x80 ||| (c &&& 0x3F)]

/-- The UTF-8 bytes of a string (what `hash.update` hashes in Node). -/
def strBytes (s : String) : List Nat := s.data.flatMap (fun c => utf8EncodeChar c.toNat)

/-- The white-space code points stripped by JavaScript `String.prototype.trim`
(ASCII white space, NBSP, BOM and the Unicode space/line separators). -/
def jsWhitespaceChar (c : Char) : Bool :=
  [9, 10, 11, 12, 13, 32, 0xA0, 0x1680, 0x2000, 0x2001, 0x2002, 0x2003,
   0x2004, 0x2005, 0x2006, 0x2007, 0x2008, 0x2009, 0x200A, 0x2028, 0x2029,
   0x202F, 0x205F, 0x3000, 0xFEFF].contains c.toNat

/-- JavaScript `toLowerCase` on the code points the program's inputs use
(the simple ASCII case mapping). -/
def jsToLowerChar (c : Char) : Char :=
  if 65 ≤ c.toNat ∧ c.toNat ≤ 90 then Char.ofNat (c.toNat + 32) else c

/-- JavaScript `s.trim()`: strip leading and trailing white space. -/
def jsTrim (cs : List Char) : List Char :=
  ((cs.dropWhile jsWhitespaceChar).reverse.dropWhile jsWhitespaceChar).reverse

/-- `email.trim().toLowerCase()` from `getGravatarImage`. -/
def normalizeEmail (s : String) : String :=
  String.mk ((jsTrim s.data).map jsToLowerChar)

/-- `getGravatarImage` (src/src/app.ts lines 129-136): normalize the email,
hash it with SHA-256, and build the Gravatar URL. -/
def getGravatarImage (email : String) : String :=
  let normalizedEmail := normalizeEmail email
  let hash := sha256Hex (strBytes normalizedEmail)
  "https://gravatar.com/avatar/" ++ hash ++ "?s=400"

/-! ### The request/response model and the network-backed strategies -/

/-- JavaScript truthiness of a possibly-absent string value: `undefined`
(absent field) and the empty string are falsy, every other string is
truthy.  This is the test performed by `if (!(account_type && identifier))`,
by `if (data.avatar_url)` / `if (data.avatar)` and by `if (!photo)`. -/
def jsTruthy : Option String → Bool
  | none => false
  | some s => !(s == "")

/-- The outcome of one outbound `fetch(...).then(res => res.json())`:
either the promise rejects (network failure or a non-JSON body), which the
surrounding `try`/`catch` intercepts, or it yields a parsed object whose
avatar field (`avatar_url` for GitHub, `avatar` for Mastodon) is absent
(`none`), or present with a string value. -/
inductive ProviderResponse where
  | fetchError : ProviderResponse
  | json (avatarField : Option String) : ProviderResponse

/-- `getGitHubProfileImage` (src/src/app.ts lines 79-96), as a function of
the outcome of its single `fetch` of `https://api.github.com/users/{username}`:
on a caught error it returns `null`; on a parsed payload it returns
`data.avatar_url` if that field is truthy and `null` otherwise. -/
def getGitHubProfileImage (resp : ProviderResponse) : Option String :=
  match resp with
  | .fetchError => none
  | .json avatar_url => if jsTruthy avatar_url then avatar_url else none

/-- `getMastodonProfileImage` (src/src/app.ts lines 103-122), as a function
of the outcome of its single `fetch` of
`https://mastodon.social/api/v1/accounts/lookup?acct={username}`: on a
caught error it returns `null`; on a parsed payload it returns
`data.avatar` if that field is truthy and `null` otherwise. -/
def getMastodonProfileImage (resp : ProviderResponse) : Option String :=
  match resp with
  | .fetchError => none
  | .json avatar => if jsTruthy avatar then avatar else none

/-- The external world seen by one request: for each identifier, the
outcome of the GitHub user lookup and of the Mastodon account lookup. -/
structure World where
  githubApi : String → ProviderResponse
  mastodonApi : String → ProviderResponse

/-- The two fields the handler destructures from `req.body`; `none` models
an absent field (`undefined`). -/
structure RequestBody where
  account_type : Option String
  identifier : Option String

/-- The two JSON body shapes the handler produces:
`{ success: false, message }` and `{ success: true, photo }`. -/
inductive ResponseBody where
  | failure (message : String) : ResponseBody
  | success (photo : String) : ResponseBody
deriving DecidableEq

/-- An HTTP response: status code plus JSON body. -/
structure HttpResponse where
  status : Nat
  body : ResponseBody
deriving DecidableEq

/-- The three provider strategies, used to record which strategy a request
actually invoked. -/
inductive Strategy where
  | github : Strategy
  | gravatar : Strategy
  | mastodon : Strategy
deriving DecidableEq

/-- `const accountTypes = ["mastodon", "gravatar", "github"]`. -/
def accountTypes : List String := ["mastodon", "gravatar", "github"]

/-- The POST `/` handler (src/src/app.ts lines 23-68), instrumented with
the list of strategies it invokes: validate presence, validate membership
in `accountTypes`, run the `switch` on `account_type` (the sole matching
strategy executes; `photo` stays `null` when no case matches), then build
the response from the truthiness of `photo`. -/
def handlePostTraced (world : World) (req : RequestBody) :
    HttpResponse × List Strategy :=
  if !(jsTruthy req.account_type && jsTruthy req.identifier) then
    (⟨400, .failure "Missing account_type or identifier"⟩, [])
  else
    let acctType := req.account_type.getD ""
    let ident := req.identifier.getD ""
    if !(accountTypes.contains acctType) then
      (⟨400, .failure "Invalid account_type"⟩, [])
    else
      let photoTrace : Option String × List Strategy :=
        match acctType with
        | "github" => (getGitHubProfileImage (world.githubApi ident), [.github])
        | "gravatar" => (some (getGravatarImage ident), [.gravatar])
        | "mastodon" => (getMastodonProfileImage (world.mastodonApi ident), [.mastodon])
        | _ => (none, [])
      if !(jsTruthy photoTrace.1) then
        (⟨400, .failure "Could not fetch the profile image"⟩, photoTrace.2)
      else
        (⟨200, .success (photoTrace.1.getD "")⟩, photoTrace.2)

/-- The observable behaviour of the POST `/` handler: its HTTP response. -/
def handlePost (world : World) (req : RequestBody) : HttpResponse :=
  (handlePostTraced world req).1

/-- The strategies a request causes to run. -/
def invokedStrategies (world : World) (req : RequestBody) : List Strategy :=
  (handlePostTraced world req).2

set_option maxRecDepth 100000


/-- A world in which both provider lookups fail (the `fetch` promise
rejects for every identifier). -/
def errorWorld : World := ⟨fun _ => .fetchError, fun _ => .fetchError⟩

/-- A world in which both providers answer with JSON that lacks the
avatar field. -/
def noFieldWorld : World := ⟨fun _ => .json none, fun _ => .json none⟩

/-- A world in which both providers answer with a fixed avatar URL. -/
def avatarWorld : World :=
  ⟨fun _ => .json (some "https://example.com/a.png"),
   fun _ => .json (some "https://example.com/a.png")⟩

/-- A world in which both providers answer with an avatar field holding
the empty string. -/
def emptyAvatarWorld : World := ⟨fun _ => .json (some ""), fun _ => .json (some "")⟩

theorem jsTruthy_some_of_ne (s : String) (h : s ≠ "") : jsTruthy (some s) = true := by
  have hb : (s == "") = false := beq_eq_false_iff_ne.mpr h
  simp [jsTruthy, hb]

theorem handlePostTraced_github (w : World) (id : String) (h : id ≠ "") :
    handlePostTraced w ⟨some "github", some id⟩ =
      (if jsTruthy (getGitHubProfileImage (w.githubApi id)) then
         ⟨200, .success ((getGitHubProfileImage (w.githubApi id)).getD "")⟩
       else ⟨400, .failure "Could not fetch the profile image"⟩,
       [Strategy.github]) := by
  have hts : jsTruthy (some id) = true := jsTruthy_some_of_ne id h
  have hgt : jsTruthy (some "github") = true := rfl
  simp [handlePostTraced, hts, hgt, accountTypes]
  cases hjs : jsTruthy (getGitHubProfileImage (w.githubApi id)) <;> simp [hjs]

theorem handlePostTraced_mastodon (w : World) (id : String) (h : id ≠ "") :
    handlePostTraced w ⟨some "mastodon", some id⟩ =
      (if jsTruthy (getMastodonProfileImage (w.mastodonApi id)) then
         ⟨200, .success ((getMastodonProfileImage (w.mastodonApi id)).getD "")⟩
       else ⟨400, .failure "Could not fetch the profile image"⟩,
       [Strategy.mastodon]) := by
  have hts : jsTruthy (some id) = true := jsTruthy_some_of_ne id h
  have hgt : jsTruthy (some "mastodon") = true := rfl
  simp [handlePostTraced, hts, hgt, accountTypes]
  cases hjs : jsTruthy (getMastodonProfileImage (w.mastodonApi id)) <;> simp [hjs]

theorem handlePostTraced_gravatar (w : World) (id : String) (h : id ≠ "") :
    handlePostTraced w ⟨some "gravatar", some id⟩ =
      (if jsTruthy (some (getGravatarImage id)) then
         ⟨200, .success (getGravatarImage id)⟩
       else ⟨400, .failure "Could not fetch the profile image"⟩,
       [Strategy.gravatar]) := by
  have hts : jsTruthy (some id) = true := jsTruthy_some_of_ne id h
  have hgt : jsTruthy (some "gravatar") = true := rfl
  simp [handlePostTraced, hts, hgt, accountTypes]
  cases hjs : jsTruthy (some (getGravatarImage id)) <;> simp [hjs]

theorem getGravatarImage_ne_empty (id : String) : getGravatarImage id ≠ "" := by
  intro hcontra
  have hlen := congrArg String.length hcontra
  rw [getGravatarImage] at hlen
  simp [String.length_append] at hlen
  exact absurd hlen.1.1 (by decide)

/-- C1: for the input identifier "test@example.com" (and in general for
every identifier string), the Gravatar strategy returns exactly the URL
`"https://gravatar.com/avatar/" ++ sha256-hex of the trimmed, lowercased
identifier ++ "?s=400"`. -/
theorem gravatar_url_formula :
    getGravatarImage "test@example.com" =
      "https://gravatar.com/avatar/973dfe463ec85785f5f95af5ba3906eedb2d931c24e69824a89ea65dba4e813b?s=400"
    ∧ ∀ s : String, getGravatarImage s =
        "https://gravatar.com/avatar/" ++ sha256Hex (strBytes (normalizeEmail s)) ++ "?s=400" :=
  ⟨by decide, fun _ => rfl⟩

/-- C2: the Gravatar strategy is a deterministic pure function, and any
two identifiers equal after trimming and lowercasing yield the same URL. -/
theorem gravatar_deterministic :
    (∀ s : String, getGravatarImage s = getGravatarImage s)
    ∧ ∀ s t : String, normalizeEmail s = normalizeEmail t →
        getGravatarImage s = getGravatarImage t :=
  ⟨fun _ => rfl, fun s t h => by unfold getGravatarImage; rw [h]⟩

/-- Witness for C2 on the spec's examples "A@B.com", " a@b.com ",
"a@b.com". -/
theorem gravatar_deterministic_witness :
    getGravatarImage "A@B.com" = getGravatarImage " a@b.com "
    ∧ getGravatarImage "a@b.com" = getGravatarImage " a@b.com " :=
  ⟨gravatar_deterministic.2 "A@B.com" " a@b.com " (by decide),
   gravatar_deterministic.2 "a@b.com" " a@b.com " (by decide)⟩

/-- C3: when a GitHub/Mastodon provider call fails or its payload lacks
the avatar field, the strategy returns absence and the endpoint answers
400 "Could not fetch the profile image". -/
theorem provider_failure_gives_400 (w : World) (id : String) (hid : id ≠ "") :
    (∀ resp : ProviderResponse,
        resp = ProviderResponse.fetchError ∨ resp = ProviderResponse.json none →
        getGitHubProfileImage resp = none ∧ getMastodonProfileImage resp = none)
    ∧ (w.githubApi id = ProviderResponse.fetchError ∨ w.githubApi id = ProviderResponse.json none →
        handlePost w ⟨some "github", some id⟩ =
          ⟨400, ResponseBody.failure "Could not fetch the profile image"⟩)
    ∧ (w.mastodonApi id = ProviderResponse.fetchError ∨ w.mastodonApi id = ProviderResponse.json none →
        handlePost w ⟨some "mastodon", some id⟩ =
          ⟨400, ResponseBody.failure "Could not fetch the profile image"⟩) := by
  refine ⟨?_, ?_, ?_⟩
  · rintro resp (rfl | rfl) <;> exact ⟨rfl, rfl⟩
  · rintro (h | h) <;>
      simp [handlePost, handlePostTraced_github w id hid, h,
            getGitHubProfileImage, jsTruthy]
  · rintro (h | h) <;>
      simp [handlePost, handlePostTraced_mastodon w id hid, h,
            getMastodonProfileImage, jsTruthy]

/-- Witness for C3: both provider failure modes at a concrete request. -/
theorem provider_failure_gives_400_witness :
    handlePost errorWorld ⟨some "github", some "octocat"⟩ =
      ⟨400, ResponseBody.failure "Could not fetch the profile image"⟩
    ∧ handlePost noFieldWorld ⟨some "mastodon", some "gargron"⟩ =
      ⟨400, ResponseBody.failure "Could not fetch the profile image"⟩ :=
  ⟨(provider_failure_gives_400 errorWorld "octocat" (by decide)).2.1 (Or.inl rfl),
   (provider_failure_gives_400 noFieldWorld "gargron" (by decide)).2.2 (Or.inr rfl)⟩

/-- C4: a request with a missing or empty account_type or identifier gets
400 "Missing account_type or identifier" and invokes no strategy. -/
theorem missing_input_gives_400 (w : World) (req : RequestBody)
    (h : jsTruthy req.account_type = false ∨ jsTruthy req.identifier = false) :
    handlePost w req = ⟨400, ResponseBody.failure "Missing account_type or identifier"⟩
    ∧ invokedStrategies w req = [] := by
  have hcond : (jsTruthy req.account_type && jsTruthy req.identifier) = false := by
    rcases h with h | h <;> simp [h]
  constructor <;> simp [handlePost, invokedStrategies, handlePostTraced, hcond]

/-- Witness for C4 at a concrete request with an absent account_type. -/
theorem missing_input_gives_400_witness :
    handlePost errorWorld ⟨none, some "x"⟩ =
      ⟨400, ResponseBody.failure "Missing account_type or identifier"⟩
    ∧ invokedStrategies errorWorld ⟨none, some "x"⟩ = [] :=
  missing_input_gives_400 errorWorld ⟨none, some "x"⟩ (Or.inl rfl)

/-- C5 as stated is false: with account_type "bluesky" present but the
identifier absent, the response message is "Missing account_type or
identifier", not "Invalid account_type". -/
theorem invalid_account_type_counterexample :
    jsTruthy (some "bluesky") = true
    ∧ accountTypes.contains "bluesky" = false
    ∧ ¬ (handlePost errorWorld ⟨some "bluesky", none⟩ =
          ⟨400, ResponseBody.failure "Invalid account_type"⟩) := by decide

/-- C5 (amended): a request whose account_type and identifier are both
present and non-empty but whose account_type is outside the enumeration
gets 400 "Invalid account_type" and invokes no strategy. -/
theorem invalid_account_type_gives_400 (w : World) (req : RequestBody)
    (h1 : jsTruthy req.account_type = true) (h2 : jsTruthy req.identifier = true)
    (h3 : accountTypes.contains (req.account_type.getD "") = false) :
    handlePost w req = ⟨400, ResponseBody.failure "Invalid account_type"⟩
    ∧ invokedStrategies w req = [] := by
  have h3m : ¬ (req.account_type.getD "" ∈ accountTypes) := by simpa using h3
  constructor <;>
    simp [handlePost, invokedStrategies, handlePostTraced, h1, h2, h3m]

/-- Witness for the amended C5 at the spec's "bluesky" example. -/
theorem invalid_account_type_gives_400_witness :
    handlePost errorWorld ⟨some "bluesky", some "x"⟩ =
      ⟨400, ResponseBody.failure "Invalid account_type"⟩
    ∧ invokedStrategies errorWorld ⟨some "bluesky", some "x"⟩ = [] :=
  invalid_account_type_gives_400 errorWorld ⟨some "bluesky", some "x"⟩ rfl rfl rfl

/-- C6: for every validated request the dispatch is exhaustive over the
enumeration and exactly the matching strategy runs. -/
theorem dispatch_exactly_one (w : World) (a id : String)
    (hid : id ≠ "") (hmem : accountTypes.contains a = true) :
    (a = "github" → invokedStrategies w ⟨some a, some id⟩ = [Strategy.github])
    ∧ (a = "gravatar" → invokedStrategies w ⟨some a, some id⟩ = [Strategy.gravatar])
    ∧ (a = "mastodon" → invokedStrategies w ⟨some a, some id⟩ = [Strategy.mastodon])
    ∧ (invokedStrategies w ⟨some a, some id⟩).length = 1 := by
  have hcases : a = "mastodon" ∨ a = "gravatar" ∨ a = "github" := by
    simpa [accountTypes] using hmem
  rcases hcases with rfl | rfl | rfl <;>
    refine ⟨?_, ?_, ?_, ?_⟩ <;>
    simp [invokedStrategies, handlePostTraced_github w id hid,
          handlePostTraced_gravatar w id hid, handlePostTraced_mastodon w id hid]

/-- Witness for C6 at each of the three account types. -/
theorem dispatch_exactly_one_witness :
    invokedStrategies errorWorld ⟨some "gravatar", some "x"⟩ = [Strategy.gravatar]
    ∧ (invokedStrategies errorWorld ⟨some "gravatar", some "x"⟩).length = 1 :=
  ⟨(dispatch_exactly_one errorWorld "gravatar" "x" (by decide) (by decide)).2.1 rfl,
   (dispatch_exactly_one errorWorld "gravatar" "x" (by decide) (by decide)).2.2.2⟩

/-- C7: the Gravatar strategy never yields absence, so a gravatar request
with a non-empty identifier always answers 200 with the Gravatar URL. -/
theorem gravatar_never_absent (w : World) (id : String) (hid : id ≠ "") :
    getGravatarImage id ≠ ""
    ∧ handlePost w ⟨some "gravatar", some id⟩ =
        ⟨200, ResponseBody.success (getGravatarImage id)⟩ := by
  have hne : getGravatarImage id ≠ "" := getGravatarImage_ne_empty id
  refine ⟨hne, ?_⟩
  have ht : jsTruthy (some (getGravatarImage id)) = true := jsTruthy_some_of_ne _ hne
  simp [handlePost, handlePostTraced_gravatar w id hid, ht]

/-- Witness for C7 at the spec's scenario identifier. -/
theorem gravatar_never_absent_witness :
    handlePost errorWorld ⟨some "gravatar", some "Test@Example.com "⟩ =
      ⟨200, ResponseBody.success (getGravatarImage "Test@Example.com ")⟩ :=
  (gravatar_never_absent errorWorld "Test@Example.com " (by decide)).2

/-- C8: when the provider payload carries a truthy avatar field, the
strategy returns its value unchanged and the endpoint answers 200 with it. -/
theorem success_path (w : World) (id v : String) (hid : id ≠ "") (hv : v ≠ "") :
    (w.githubApi id = ProviderResponse.json (some v) →
      getGitHubProfileImage (w.githubApi id) = some v
      ∧ handlePost w ⟨some "github", some id⟩ = ⟨200, ResponseBody.success v⟩)
    ∧ (w.mastodonApi id = ProviderResponse.json (some v) →
      getMastodonProfileImage (w.mastodonApi id) = some v
      ∧ handlePost w ⟨some "mastodon", some id⟩ = ⟨200, ResponseBody.success v⟩) := by
  have htv : jsTruthy (some v) = true := jsTruthy_some_of_ne v hv
  constructor <;> intro h
  · have hs : getGitHubProfileImage (w.githubApi id) = some v := by
      simp [getGitHubProfileImage, h, htv]
    exact ⟨hs, by simp [handlePost, handlePostTraced_github w id hid, hs, htv]⟩
  · have hs : getMastodonProfileImage (w.mastodonApi id) = some v := by
      simp [getMastodonProfileImage, h, htv]
    exact ⟨hs, by simp [handlePost, handlePostTraced_mastodon w id hid, hs, htv]⟩

/-- Witness for C8 with a concrete avatar URL from both providers. -/
theorem success_path_witness :
    handlePost avatarWorld ⟨some "github", some "octocat"⟩ =
      ⟨200, ResponseBody.success "https://example.com/a.png"⟩
    ∧ handlePost avatarWorld ⟨some "mastodon", some "gargron"⟩ =
      ⟨200, ResponseBody.success "https://example.com/a.png"⟩ :=
  ⟨((success_path avatarWorld "octocat" "https://example.com/a.png"
      (by decide) (by decide)).1 rfl).2,
   ((success_path avatarWorld "gargron" "https://example.com/a.png"
      (by decide) (by decide)).2 rfl).2⟩

/-- C9: a present-but-falsy avatar field (the empty string) makes the
strategy return absence, so the endpoint answers 400 "Could not fetch the
profile image" exactly as if the field were absent. -/
theorem empty_avatar_field_gives_400 (w : World) (id : String) (hid : id ≠ "") :
    (w.githubApi id = ProviderResponse.json (some "") →
      getGitHubProfileImage (w.githubApi id) = none
      ∧ handlePost w ⟨some "github", some id⟩ =
          ⟨400, ResponseBody.failure "Could not fetch the profile image"⟩)
    ∧ (w.mastodonApi id = ProviderResponse.json (some "") →
      getMastodonProfileImage (w.mastodonApi id) = none
      ∧ handlePost w ⟨some "mastodon", some id⟩ =
          ⟨400, ResponseBody.failure "Could not fetch the profile image"⟩) := by
  constructor <;> intro h
  · have hs : getGitHubProfileImage (w.githubApi id) = none := by
      simp [getGitHubProfileImage, h, jsTruthy]
    exact ⟨hs, by simp [handlePost, handlePostTraced_github w id hid, hs, jsTruthy]⟩
  · have hs : getMastodonProfileImage (w.mastodonApi id) = none := by
      simp [getMastodonProfileImage, h, jsTruthy]
    exact ⟨hs, by simp [handlePost, handlePostTraced_mastodon w id hid, hs, jsTruthy]⟩

/-- Witness for C9 with both providers returning an empty avatar field. -/
theorem empty_avatar_field_gives_400_witness :
    handlePost emptyAvatarWorld ⟨some "github", some "octocat"⟩ =
      ⟨400, ResponseBody.failure "Could not fetch the profile image"⟩
    ∧ handlePost emptyAvatarWorld ⟨some "mastodon", some "gargron"⟩ =
      ⟨400, ResponseBody.failure "Could not fetch the profile image"⟩ :=
  ⟨((empty_avatar_field_gives_400 emptyAvatarWorld "octocat" (by decide)).1 rfl).2,
   ((empty_avatar_field_gives_400 emptyAvatarWorld "gargron" (by decide)).2 rfl).2⟩

/-- C10: every response has status 200 or 400, status 200 exactly when the
body is the success shape with a photo, and status 400 exactly when the
body is the failure shape with a message. -/
theorem response_shape (w : World) (req : RequestBody) :
    ((handlePost w req).status = 200 ∨ (handlePost w req).status = 400)
    ∧ ((handlePost w req).status = 200 ↔
        ∃ p, (handlePost w req).body = ResponseBody.success p)
    ∧ ((handlePost w req).status = 400 ↔
        ∃ m, (handlePost w req).body = ResponseBody.failure m) := by
  unfold handlePost handlePostTraced
  rcases req with ⟨a, i⟩
  dsimp only
  split
  · simp
  · split
    · simp
    · split <;> simp

end AvatarApp
